import Mathlib

/-!
Shallow embedding of the `endpoints` authentication decorators
(`endpoints/decorators/auth.py`) and of the WSGI request adapter
(`endpoints/interface/wsgi.py`), together with theorems checking the
natural-language specification of the package against the code.
-/

namespace Endpoints

/-- Python values, as far as the decorated handlers and validators need them:
`none` is Python's `None`, and the other constructors carry booleans, integers
and strings.  Only truthiness and equality of these values matter here. -/
inductive Val where
  | none
  | bool (b : Bool)
  | int (n : Int)
  | str (s : String)
  deriving Repr, DecidableEq

/-- Python truthiness of a `Val` (`None`, `False`, `0` and `""` are falsy). -/
def Val.truthy : Val → Bool
  | .none => false
  | .bool b => b
  | .int n => n != 0
  | .str s => s != ""

/-- Modelled from the spec: the exception classes `CallError` and `AccessDenied`
are imported from `endpoints/exception.py`, which is not among the sources here;
the spec (§6) describes them as "two distinguishable raised conditions",
`CallError(status, message)` and `AccessDenied(realm, message)`.  The remaining
constructors stand for the Python exception classes `ValueError`,
`AttributeError` and `TypeError` used by `auth.py`, plus an arbitrary other
exception; none of those stdlib classes is a `CallError`. -/
inductive Exc where
  | callError (status : Nat) (msg : String)
  | accessDenied (realm : String) (msg : String)
  | valueError (msg : String)
  | attributeError (msg : String)
  | typeError (msg : String)
  | otherError (msg : String)
  deriving Repr, DecidableEq

/-- `isinstance(e, CallError)`, the test performed by `except CallError`. -/
def Exc.isCallError : Exc → Bool
  | .callError _ _ => true
  | _ => false

/-- Python 2's `e.message`: the message string the exception carries. -/
def Exc.message : Exc → String
  | .callError _ m => m
  | .accessDenied _ m => m
  | .valueError m => m
  | .attributeError m => m
  | .typeError m => m
  | .otherError m => m

/-- The "setup error" classification of spec §7: the exact condition
`CallError(403, "You need a validator function to use authentication")`. -/
def Exc.isSetupError : Exc → Bool
  | .callError s m => s == 403 && m == "You need a validator function to use authentication"
  | _ => false

/-- Modelled from the spec: the request object is external to this core (§6).
It exposes `get_auth_basic() -> (username, password)`, a `client_tokens` pair
and an `access_token` accessor, each of which may yield an absent value
(`Option.none`, Python `None`) or an empty string rather than raising. -/
structure Request where
  auth_basic : Option String × Option String
  client_tokens : Option String × Option String
  access_token : Option String
  deriving Repr, DecidableEq

/-- Python truthiness of a possibly-absent string (`not x` is true exactly when
`x` is `None` or `""`). -/
def optTruthy : Option String → Bool
  | Option.none => false
  | some s => s != ""

/-- Coerce a possibly-absent string into a `Val` (used once the truthiness
check has passed, so the `Option.none` branch is unreachable there). -/
def optVal : Option String → Val
  | Option.none => Val.none
  | some s => Val.str s

/-- The four classes of the decorator hierarchy in `auth.py`: the generic base
class `auth` and its specializations `basic_auth`, `client_auth` (a further
specialization of `basic_auth`) and `token_auth`.  The scheme of the instance
decides which override of `normalize_target_params` dynamic dispatch selects. -/
inductive Scheme where
  | generic
  | basic
  | client
  | token
  deriving Repr, DecidableEq

/-- The parameters `auth.target` receives after `normalize_target_params`:
Python's `target(self, request, *args, **kwargs)` binds `request` either from
the first positional argument (base class: `[request] + args`) or from the
`"request"` key of the returned kwargs dict (the three specializations); the
bound result is recorded structurally as the `request` field, with the
remaining positional and keyword arguments alongside. -/
structure NormParams where
  request : Request
  args : List Val
  kwargs : List (String × Val)
  deriving Repr, DecidableEq

/-- `normalize_target_params(self, request, *args, **kwargs)`, dispatched on the
class of `self`:
* `auth` (generic): `return [request] + list(args), kwargs`;
* `basic_auth`: `username, password = request.get_auth_basic()`, raising
  `ValueError("username is required")` / `ValueError("password is required")`
  when the respective value is falsy, else kwargs `request`/`username`/`password`;
* `client_auth`: the same over `request.client_tokens` with
  `client_id` / `client_secret`;
* `token_auth`: `access_token = request.access_token`, raising
  `ValueError("access_token is required")` when falsy, else kwargs
  `request`/`access_token`. -/
def normalize_target_params :
    Scheme → Request → List Val → List (String × Val) → Except Exc NormParams
  | .generic, r, args, kwargs => .ok ⟨r, args, kwargs⟩
  | .basic, r, _, _ =>
      if !optTruthy r.auth_basic.1 then .error (.valueError "username is required")
      else if !optTruthy r.auth_basic.2 then .error (.valueError "password is required")
      else .ok ⟨r, [],
        [("username", optVal r.auth_basic.1), ("password", optVal r.auth_basic.2)]⟩
  | .client, r, _, _ =>
      if !optTruthy r.client_tokens.1 then .error (.valueError "client_id is required")
      else if !optTruthy r.client_tokens.2 then .error (.valueError "client_secret is required")
      else .ok ⟨r, [],
        [("client_id", optVal r.client_tokens.1), ("client_secret", optVal r.client_tokens.2)]⟩
  | .token, r, _, _ =>
      if !optTruthy r.access_token then .error (.valueError "access_token is required")
      else .ok ⟨r, [], [("access_token", optVal r.access_token)]⟩

/-- A validator callback (the decorator's `target_callback`): it receives the
request plus the normalized positional/keyword credential fields and either
returns a `Val` or raises an `Exc`. -/
abbrev Validator := Request → List Val → List (String × Val) → Except Exc Val

/-- A decorated handler body: `func(decorated_self, *args, **kwargs)`; the
controller `decorated_self` is identified with its `request` attribute, the
only part of it this module reads. -/
abbrev Handler := Request → List Val → List (String × Val) → Val

/-- The per-instance state of a decorator: the class it was instantiated from
and the two fields `decorate` assigns, `self.realm` and (when a target was
supplied) `self.target_callback`.  `Option.none` models the attribute never
having been set, so that reading it raises `AttributeError`. -/
structure Decor where
  scheme : Scheme
  realm : String
  target_callback : Option Validator

/-- The message of the misconfiguration error raised by `auth.target`. -/
def setupErrorMsg : String := "You need a validator function to use authentication"

/-- `auth.target(self, request, *args, **kwargs)`: calls
`self.target_callback(request, *args, **kwargs)`, turning an `AttributeError`
(in particular the one raised by accessing the never-assigned
`self.target_callback`) or a `TypeError` into
`CallError(403, "You need a validator function to use authentication")`.
The second component records the validator invocations that occurred
(none when the attribute access already failed). -/
def auth.target (d : Decor) (p : NormParams) : Except Exc Val × List NormParams :=
  match d.target_callback with
  | Option.none => (.error (.callError 403 setupErrorMsg), [])
  | some cb =>
      match cb p.request p.args p.kwargs with
      | .error (.attributeError _) => (.error (.callError 403 setupErrorMsg), [p])
      | .error (.typeError _) => (.error (.callError 403 setupErrorMsg), [p])
      | res => (res, [p])

/-- The exception handling of `auth.handle_target`'s `try` block:
`except CallError: raise` re-raises a `CallError` unchanged, and
`except Exception as e: raise AccessDenied(self.realm, e.message)` wraps
every other exception. -/
def wrapErr (realm : String) (e : Exc) : Exc :=
  if e.isCallError then e else .accessDenied realm e.message

/-- `auth.handle_target(self, request, *args, **kwargs)`: normalize the target
parameters, call `self.target(...)`, and raise
`ValueError("target did not return True")` when the validator's return value is
falsy; a `CallError` escapes unchanged and any other exception is wrapped as
`AccessDenied(self.realm, e.message)`.  The second component is the list of
validator invocations performed. -/
def auth.handle_target (d : Decor) (r : Request) (args : List Val)
    (kwargs : List (String × Val)) : Except Exc Unit × List NormParams :=
  match normalize_target_params d.scheme r args kwargs with
  | .error e => (.error (wrapErr d.realm e), [])
  | .ok p =>
      match auth.target d p with
      | (.ok ret, tr) =>
          if ret.truthy then (.ok (), tr)
          else (.error (wrapErr d.realm (Exc.valueError "target did not return True")), tr)
      | (.error e, tr) => (.error (wrapErr d.realm e), tr)

/-- The wrapped handler together with the decorator instance whose
`handle_target` guards it. -/
structure Decorated where
  dec : Decor
  func : Handler

/-- `auth.decorate(self, func, realm='', target=None, *anoop, **kwnoop)`:
stores `self.realm = realm` and, only when `target` is truthy (a function
object always is, `None` is not), `self.target_callback = target`; returns the
`decorated` closure.  The scheme argument models the dynamic class of `self`,
so that calls through `super(...)` keep dispatching `normalize_target_params`
to the subclass override. -/
def auth.decorate (s : Scheme) (func : Handler) (realm : String)
    (target : Option Validator) : Decorated :=
  ⟨⟨s, realm, target⟩, func⟩

/-- `basic_auth.decorate(self, func, target)`: forwards to `auth.decorate`
with `realm="basic"`. -/
def basic_auth.decorate (s : Scheme) (func : Handler) (target : Option Validator) :
    Decorated :=
  auth.decorate s func "basic" target

/-- `client_auth.decorate(self, func, target)`: forwards to
`basic_auth.decorate` without overriding the realm. -/
def client_auth.decorate (func : Handler) (target : Option Validator) : Decorated :=
  basic_auth.decorate .client func target

/-- `token_auth.decorate(self, func, target)`: forwards to `auth.decorate`
with `realm="Bearer"`. -/
def token_auth.decorate (func : Handler) (target : Option Validator) : Decorated :=
  auth.decorate .token func "Bearer" target

/-- The invocations the `decorated` closure performs, beyond its result:
the validator calls made by `handle_target` and the handler calls (with the
arguments the handler received). -/
structure Trace where
  validatorCalls : List NormParams
  handlerCalls : List (Request × List Val × List (String × Val))
  deriving Repr, DecidableEq

/-- The body of the `decorated` closure returned by `auth.decorate`:
`self.handle_target(decorated_self.request, *args, **kwargs)` followed, only
when that returned normally, by `return func(decorated_self, *args, **kwargs)`. -/
def Decorated.call (dc : Decorated) (r : Request) (args : List Val)
    (kwargs : List (String × Val)) : Except Exc Val × Trace :=
  match auth.handle_target dc.dec r args kwargs with
  | (.error e, vtr) => (.error e, ⟨vtr, []⟩)
  | (.ok _, vtr) => (.ok (dc.func r args kwargs), ⟨vtr, [(r, args, kwargs)]⟩)

/-- `Decorated.call` with the decorator's instance state threaded explicitly:
the call path (`handle_target`, `target`, `normalize_target_params`) contains
no assignment to `self`, so the state after the call is the state before.
`decorate` is the only writer of `realm` / `target_callback`. -/
def Decorated.callS (dc : Decorated) (r : Request) (args : List Val)
    (kwargs : List (String × Val)) : (Except Exc Val × Trace) × Decor :=
  (Decorated.call dc r args kwargs, dc.dec)

/-- The decoration entry point of each class, dispatched on the scheme:
`basic_auth`, `client_auth` and `token_auth` take only the handler and the
target, while the generic base takes an explicit realm (defaulting to `""`)
and an optional target. -/
def specDecorate : Scheme → Handler → Option Validator → Decorated
  | .generic, f, t => auth.decorate .generic f "" t
  | .basic, f, t => basic_auth.decorate .basic f t
  | .client, f, t => client_auth.decorate f t
  | .token, f, t => token_auth.decorate f t

/-- An invocation of the class's `decorate` method with Python's
argument-passing semantics for its signature.  `targetArg = Option.none` models
*omitting* the `target` argument (while `some t` supplies it, possibly as an
explicit `target=None`): the three specializations declare
`decorate(self, func, target)` with `target` a required parameter, so omitting
it raises `TypeError` at decoration time, while the base class declares
`decorate(self, func, realm='', target=None)` with defaults, so decoration
always succeeds there. -/
def applyDecorator (s : Scheme) (func : Handler) (realmArg : Option String)
    (targetArg : Option (Option Validator)) : Except Exc Decorated :=
  match s with
  | .generic =>
      .ok (auth.decorate .generic func (realmArg.getD "") (targetArg.getD Option.none))
  | .basic =>
      match targetArg with
      | Option.none => .error (.typeError "decorate() missing required argument: target")
      | some t => .ok (basic_auth.decorate .basic func t)
  | .client =>
      match targetArg with
      | Option.none => .error (.typeError "decorate() missing required argument: target")
      | some t => .ok (client_auth.decorate func t)
  | .token =>
      match targetArg with
      | Option.none => .error (.typeError "decorate() missing required argument: target")
      | some t => .ok (token_auth.decorate func t)

/-- The first required credential field a scheme's
`normalize_target_params` finds empty or absent on a request, if any
(mirroring the order of the checks in the source). -/
def firstMissing : Scheme → Request → Option String
  | .generic, _ => Option.none
  | .basic, r =>
      if !optTruthy r.auth_basic.1 then some "username"
      else if !optTruthy r.auth_basic.2 then some "password"
      else Option.none
  | .client, r =>
      if !optTruthy r.client_tokens.1 then some "client_id"
      else if !optTruthy r.client_tokens.2 then some "client_secret"
      else Option.none
  | .token, r =>
      if !optTruthy r.access_token then some "access_token"
      else Option.none

/-- Every `AccessDenied` that `handle_target` raises carries the realm stored
on the decorator instance: it only constructs `AccessDenied` through `wrapErr`
with `self.realm`. -/
theorem handle_target_accessDenied_realm (d : Decor) (r : Request) (a : List Val)
    (k : List (String × Val)) (rm m : String)
    (h : (auth.handle_target d r a k).1 = .error (.accessDenied rm m)) :
    rm = d.realm := by
  unfold auth.handle_target auth.target wrapErr at h
  repeat' split at h
  all_goals simp_all [Exc.isCallError, Exc.message]

/-- Every `AccessDenied` a decorated call raises carries the realm stored on
the decorator instance. -/
theorem call_accessDenied_realm (dc : Decorated) (r : Request) (a : List Val)
    (k : List (String × Val)) (rm m : String)
    (h : (Decorated.call dc r a k).1 = .error (.accessDenied rm m)) :
    rm = dc.dec.realm := by
  obtain ⟨d, f⟩ := dc
  unfold Decorated.call at h
  cases he : auth.handle_target d r a k with
  | mk res vtr =>
      cases res with
      | error e =>
          simp only [he] at h
          simp at h
          exact handle_target_accessDenied_realm d r a k rm m (by rw [he, h])
      | ok u =>
          simp only [he] at h
          simp at h

/-- C1: for every request in which a required credential field is empty or
absent (username/password for `basic_auth`, access_token for `token_auth`,
client_id/client_secret for `client_auth`), the wrapped handler is never
invoked, the validator callback is never invoked, and the decorated call raises
`AccessDenied` carrying the decorator's realm and the message
`"<field> is required"` for the missing field. -/
theorem C1_missing_credential_accessDenied (s : Scheme) (f : Handler)
    (t : Option Validator) (r : Request) (a : List Val) (k : List (String × Val))
    (fld : String) (hs : s ≠ Scheme.generic) (hm : firstMissing s r = some fld) :
    Decorated.call (specDecorate s f t) r a k =
      (.error (.accessDenied (specDecorate s f t).dec.realm (fld ++ " is required")),
        ⟨[], []⟩) := by
  cases s with
  | generic => exact absurd rfl hs
  | basic =>
      by_cases h1 : optTruthy r.auth_basic.1 = true <;>
        by_cases h2 : optTruthy r.auth_basic.2 = true <;>
        simp_all [firstMissing, specDecorate, basic_auth.decorate, auth.decorate,
          Decorated.call, auth.handle_target, normalize_target_params, wrapErr,
          Exc.isCallError, Exc.message] <;>
        subst hm <;> rfl
  | client =>
      by_cases h1 : optTruthy r.client_tokens.1 = true <;>
        by_cases h2 : optTruthy r.client_tokens.2 = true <;>
        simp_all [firstMissing, specDecorate, client_auth.decorate,
          basic_auth.decorate, auth.decorate, Decorated.call, auth.handle_target,
          normalize_target_params, wrapErr, Exc.isCallError, Exc.message] <;>
        (subst hm; rfl)
  | token =>
      by_cases h1 : optTruthy r.access_token = true <;>
        simp_all [firstMissing, specDecorate, token_auth.decorate, auth.decorate,
          Decorated.call, auth.handle_target, normalize_target_params, wrapErr,
          Exc.isCallError, Exc.message]
      subst hm
      rfl

/-- A concrete handler used to instantiate the theorems. -/
def wHandler : Handler := fun _ _ _ => Val.str "hello world"

/-- A concrete validator that accepts everything. -/
def wOkValidator : Validator := fun _ _ _ => .ok (Val.bool true)

/-- A concrete request carrying Basic and client credentials but no bearer
token. -/
def wReqNoToken : Request :=
  ⟨(some "foo", some "bar"), (some "cid", some "csec"), Option.none⟩

/-- Witness for C1: a `token_auth`-decorated handler called on a request with
no access token. -/
theorem C1_missing_credential_accessDenied_witness :
    Scheme.token ≠ Scheme.generic ∧
    firstMissing Scheme.token wReqNoToken = some "access_token" ∧
    Decorated.call (specDecorate Scheme.token wHandler (some wOkValidator))
        wReqNoToken [] [] =
      (.error (.accessDenied "Bearer" "access_token is required"), ⟨[], []⟩) :=
  ⟨by decide, rfl,
    C1_missing_credential_accessDenied Scheme.token wHandler (some wOkValidator)
      wReqNoToken [] [] "access_token" (by decide) rfl⟩

/-- C2: for every validator callback that returns a truthy value on the
normalized credentials, the decorated call invokes the original handler exactly
once, with the positional and keyword arguments the decorated callable
received, and returns the handler's return value unchanged. -/
theorem C2_valid_target_runs_handler_once (d : Decor) (f : Handler)
    (cb : Validator) (r : Request) (a : List Val) (k : List (String × Val))
    (p : NormParams) (v : Val)
    (hcb : d.target_callback = some cb)
    (hn : normalize_target_params d.scheme r a k = Except.ok p)
    (hv : cb p.request p.args p.kwargs = Except.ok v)
    (ht : v.truthy = true) :
    Decorated.call ⟨d, f⟩ r a k = (.ok (f r a k), ⟨[p], [(r, a, k)]⟩) := by
  simp [Decorated.call, auth.handle_target, auth.target, hn, hcb, hv, ht]

/-- A concrete request with every credential present. -/
def wReqFull : Request :=
  ⟨(some "foo", some "bar"), (some "cid", some "csec"), some "tok"⟩

/-- Witness for C2: a generic `auth` decorator with an always-true validator,
called with one positional and one keyword argument. -/
theorem C2_valid_target_runs_handler_once_witness :
    (⟨Scheme.generic, "r", some wOkValidator⟩ : Decor).target_callback = some wOkValidator ∧
    normalize_target_params Scheme.generic wReqFull [Val.int 1] [("x", Val.str "y")] =
      Except.ok ⟨wReqFull, [Val.int 1], [("x", Val.str "y")]⟩ ∧
    wOkValidator wReqFull [Val.int 1] [("x", Val.str "y")] = Except.ok (Val.bool true) ∧
    (Val.bool true).truthy = true ∧
    Decorated.call ⟨⟨Scheme.generic, "r", some wOkValidator⟩, wHandler⟩ wReqFull
        [Val.int 1] [("x", Val.str "y")] =
      (.ok (Val.str "hello world"),
        ⟨[⟨wReqFull, [Val.int 1], [("x", Val.str "y")]⟩],
          [(wReqFull, [Val.int 1], [("x", Val.str "y")])]⟩) :=
  ⟨rfl, rfl, rfl, rfl,
    C2_valid_target_runs_handler_once ⟨Scheme.generic, "r", some wOkValidator⟩
      wHandler wOkValidator wReqFull [Val.int 1] [("x", Val.str "y")]
      ⟨wReqFull, [Val.int 1], [("x", Val.str "y")]⟩ (Val.bool true) rfl rfl rfl rfl⟩

/-- A validator outcome counts as a plain validation failure when it is a falsy
return, or an exception that is neither a `CallError` (re-raised unchanged) nor
an `AttributeError`/`TypeError` (turned into the setup `CallError` by
`auth.target`). -/
def validationFailure : Except Exc Val → Bool
  | .ok v => !v.truthy
  | .error (.callError _ _) => false
  | .error (.attributeError _) => false
  | .error (.typeError _) => false
  | .error _ => true

/-- The message `handle_target` wraps into `AccessDenied` for a validation
failure: the exception's own message, or the message of the `ValueError` raised
for a falsy return. -/
def failureMsg : Except Exc Val → String
  | .ok _ => "target did not return True"
  | .error e => e.message

/-- C3 (amended): for every validator callback that returns a falsy value or
raises an exception that is neither a `CallError` nor an
`AttributeError`/`TypeError`, the wrapped handler is never invoked and the
decorated call raises `AccessDenied` carrying the decorator's realm and the
underlying exception's message.  (An `AttributeError` or `TypeError` raised by
the validator is instead classified as the setup error
`CallError(403, ...)` — see the counterexample.) -/
theorem C3_validation_failure_accessDenied (d : Decor) (f : Handler)
    (cb : Validator) (r : Request) (a : List Val) (k : List (String × Val))
    (p : NormParams) (res : Except Exc Val)
    (hcb : d.target_callback = some cb)
    (hn : normalize_target_params d.scheme r a k = Except.ok p)
    (hres : cb p.request p.args p.kwargs = res)
    (hf : validationFailure res = true) :
    Decorated.call ⟨d, f⟩ r a k =
      (.error (.accessDenied d.realm (failureMsg res)), ⟨[p], []⟩) := by
  cases res with
  | ok v =>
      simp only [validationFailure, Bool.not_eq_true'] at hf
      simp [Decorated.call, auth.handle_target, auth.target, hn, hcb, hres, hf,
        failureMsg, wrapErr, Exc.isCallError, Exc.message]
  | error e =>
      cases e <;>
        simp_all [validationFailure, failureMsg, Decorated.call,
          auth.handle_target, auth.target, hn, hcb, wrapErr, Exc.isCallError,
          Exc.message]

/-- A validator that fails with a falsy return value. -/
def wFalsyValidator : Validator := fun _ _ _ => .ok (Val.bool false)

/-- A validator that raises an unrelated lookup failure. -/
def wLookupFailValidator : Validator := fun _ _ _ => .error (.otherError "user not found")

/-- Witness for C3 (amended): a generic decorator whose validator raises a
lookup failure (`otherError`), on a request with full credentials. -/
theorem C3_validation_failure_accessDenied_witness :
    (⟨Scheme.generic, "r3", some wLookupFailValidator⟩ : Decor).target_callback =
      some wLookupFailValidator ∧
    normalize_target_params Scheme.generic wReqFull [] [] =
      Except.ok ⟨wReqFull, [], []⟩ ∧
    wLookupFailValidator wReqFull [] [] = Except.error (.otherError "user not found") ∧
    validationFailure (Except.error (.otherError "user not found")) = true ∧
    Decorated.call ⟨⟨Scheme.generic, "r3", some wLookupFailValidator⟩, wHandler⟩
        wReqFull [] [] =
      (.error (.accessDenied "r3" "user not found"), ⟨[⟨wReqFull, [], []⟩], []⟩) :=
  ⟨rfl, rfl, rfl, rfl,
    C3_validation_failure_accessDenied ⟨Scheme.generic, "r3", some wLookupFailValidator⟩
      wHandler wLookupFailValidator wReqFull [] [] ⟨wReqFull, [], []⟩
      (Except.error (.otherError "user not found")) rfl rfl rfl rfl⟩

/-- A validator that raises a `TypeError` from inside its body. -/
def cexTypeErrValidator : Validator := fun _ _ _ => .error (.typeError "unexpected type")

/-- Counterexample to C3 as stated: a validator that raises a `TypeError` —
an exception that is not a `CallError` — yet the decorated call raises
`CallError(403, "You need a validator function to use authentication")`,
not an `AccessDenied` carrying the decorator's realm and the exception's
message. -/
theorem C3_typeError_not_wrapped_counterexample :
    Exc.isCallError (.typeError "unexpected type") = false ∧
    Decorated.call ⟨⟨Scheme.generic, "realm1", some cexTypeErrValidator⟩, wHandler⟩
        wReqFull [] [] =
      (.error (.callError 403 setupErrorMsg), ⟨[⟨wReqFull, [], []⟩], []⟩) :=
  ⟨rfl, rfl⟩

/-- C5: a validator that raises a `CallError` has that same `CallError`
re-raised unchanged by the decorated call — it is not re-wrapped as
`AccessDenied` — and the wrapped handler is not invoked. -/
theorem C5_callError_reraised (d : Decor) (f : Handler) (cb : Validator)
    (r : Request) (a : List Val) (k : List (String × Val)) (p : NormParams)
    (c : Nat) (msg : String)
    (hcb : d.target_callback = some cb)
    (hn : normalize_target_params d.scheme r a k = Except.ok p)
    (hr : cb p.request p.args p.kwargs = Except.error (.callError c msg)) :
    Decorated.call ⟨d, f⟩ r a k = (.error (.callError c msg), ⟨[p], []⟩) := by
  simp [Decorated.call, auth.handle_target, auth.target, hn, hcb, hr, wrapErr,
    Exc.isCallError]

/-- A validator that deliberately raises a precise HTTP error. -/
def wCallErrValidator : Validator := fun _ _ _ => .error (.callError 410 "gone")

/-- Witness for C5: a generic decorator whose validator raises
`CallError(410, "gone")`. -/
theorem C5_callError_reraised_witness :
    (⟨Scheme.generic, "r5", some wCallErrValidator⟩ : Decor).target_callback =
      some wCallErrValidator ∧
    normalize_target_params Scheme.generic wReqFull [] [] =
      Except.ok ⟨wReqFull, [], []⟩ ∧
    wCallErrValidator wReqFull [] [] = Except.error (.callError 410 "gone") ∧
    Decorated.call ⟨⟨Scheme.generic, "r5", some wCallErrValidator⟩, wHandler⟩
        wReqFull [] [] =
      (.error (.callError 410 "gone"), ⟨[⟨wReqFull, [], []⟩], []⟩) :=
  ⟨rfl, rfl, rfl,
    C5_callError_reraised ⟨Scheme.generic, "r5", some wCallErrValidator⟩ wHandler
      wCallErrValidator wReqFull [] [] ⟨wReqFull, [], []⟩ 410 "gone" rfl rfl rfl⟩

/-- C4 (amended): decorating through one of the three scheme specializations
without supplying the `target` argument fails at decoration time with a
`TypeError` (missing required argument) — never with `AccessDenied`; the
generic base `auth` tolerates the omission: decoration succeeds with no
validator stored, and every call of the decorated handler then raises
`CallError(403, "You need a validator function to use authentication")`,
never `AccessDenied`. -/
theorem C4_missing_validator_classification (s : Scheme) (f : Handler)
    (realmArg : Option String) (r : Request) (a : List Val)
    (k : List (String × Val)) (hs : s ≠ Scheme.generic) :
    applyDecorator s f realmArg Option.none =
      .error (.typeError "decorate() missing required argument: target") ∧
    applyDecorator Scheme.generic f realmArg Option.none =
      .ok (auth.decorate .generic f (realmArg.getD "") Option.none) ∧
    Decorated.call (auth.decorate .generic f (realmArg.getD "") Option.none) r a k =
      (.error (.callError 403 setupErrorMsg), ⟨[], []⟩) := by
  refine ⟨?_, rfl, rfl⟩
  cases s with
  | generic => exact absurd rfl hs
  | basic => rfl
  | client => rfl
  | token => rfl

/-- Witness for C4 (amended): `basic_auth` with the target omitted, and the
generic base called on a concrete request. -/
theorem C4_missing_validator_classification_witness :
    Scheme.basic ≠ Scheme.generic ∧
    applyDecorator Scheme.basic wHandler Option.none Option.none =
      .error (.typeError "decorate() missing required argument: target") ∧
    applyDecorator Scheme.generic wHandler Option.none Option.none =
      .ok (auth.decorate .generic wHandler "" Option.none) ∧
    Decorated.call (auth.decorate .generic wHandler "" Option.none) wReqFull [] [] =
      (.error (.callError 403 setupErrorMsg), ⟨[], []⟩) :=
  ⟨by decide,
    C4_missing_validator_classification Scheme.basic wHandler Option.none wReqFull
      [] [] (by decide)⟩

/-- Counterexample to C4 as stated: omitting the validator on a scheme
specialization fails with a `TypeError`, which is not the setup-error
classification `CallError(403, "You need a validator function to use
authentication")` of spec §7. -/
theorem C4_decoration_typeError_counterexample :
    applyDecorator Scheme.basic wHandler Option.none Option.none =
      .error (.typeError "decorate() missing required argument: target") ∧
    Exc.isSetupError (.typeError "decorate() missing required argument: target") =
      false :=
  ⟨rfl, rfl⟩

/-- C6 (amended): for every call of a decorated handler whose credential
extraction succeeds, if the validator reference is absent, or the validator
invocation raises an `AttributeError`/`TypeError` (signature/type mismatch),
the raised condition is `CallError(403, "You need a validator function to use
authentication")` — distinct from `AccessDenied` — and the handler is not
invoked; in particular a `client_auth` decorator constructed with
`target=None` raises this `CallError` when called with both client
credentials present. -/
theorem C6_missing_validator_callError (d : Decor) (f : Handler) (r : Request)
    (a : List Val) (k : List (String × Val)) (p : NormParams)
    (hn : normalize_target_params d.scheme r a k = Except.ok p)
    (hsetup : d.target_callback = Option.none ∨
      ∃ cb m, d.target_callback = some cb ∧
        (cb p.request p.args p.kwargs = Except.error (.attributeError m) ∨
          cb p.request p.args p.kwargs = Except.error (.typeError m))) :
    (Decorated.call ⟨d, f⟩ r a k).1 = .error (.callError 403 setupErrorMsg) ∧
    (Decorated.call ⟨d, f⟩ r a k).2.handlerCalls = [] := by
  rcases hsetup with hnone | ⟨cb, m, hcb, hmis⟩
  · constructor <;>
      simp [Decorated.call, auth.handle_target, auth.target, hn, hnone, wrapErr,
        Exc.isCallError]
  · rcases hmis with hmis | hmis <;>
      constructor <;>
        simp [Decorated.call, auth.handle_target, auth.target, hn, hcb, hmis,
          wrapErr, Exc.isCallError]

/-- Witness for C6 (amended): a `client_auth` decorator constructed with
`target=None`, called on a request carrying both client credentials. -/
theorem C6_missing_validator_callError_witness :
    normalize_target_params Scheme.client wReqFull [] [] =
      Except.ok ⟨wReqFull, [], [("client_id", Val.str "cid"), ("client_secret", Val.str "csec")]⟩ ∧
    (client_auth.decorate wHandler Option.none).dec.target_callback = Option.none ∧
    (Decorated.call (client_auth.decorate wHandler Option.none) wReqFull [] []).1 =
      .error (.callError 403 setupErrorMsg) ∧
    (Decorated.call (client_auth.decorate wHandler Option.none) wReqFull [] []).2.handlerCalls = [] :=
  ⟨rfl, rfl,
    C6_missing_validator_callError ⟨Scheme.client, "basic", Option.none⟩ wHandler
      wReqFull [] []
      ⟨wReqFull, [], [("client_id", Val.str "cid"), ("client_secret", Val.str "csec")]⟩
      rfl (Or.inl rfl)⟩

/-- A request whose client credentials are missing the client id. -/
def cexReqNoClientId : Request :=
  ⟨(some "u", some "p"), (Option.none, some "csec"), some "t"⟩

/-- Counterexample to C6 as stated: a `client_auth` decorator constructed with
`target=None` — so its validator reference is absent — raises `AccessDenied`,
not `CallError(403, ...)`, when called with a request whose `client_id` is
absent: extraction rejects the request before the validator reference is ever
read. -/
theorem C6_extraction_precedes_counterexample :
    (client_auth.decorate wHandler Option.none).dec.target_callback = Option.none ∧
    Decorated.call (client_auth.decorate wHandler Option.none) cexReqNoClientId [] [] =
      (.error (.accessDenied "basic" "client_id is required"), ⟨[], []⟩) :=
  ⟨rfl, rfl⟩

/-- C7: `basic_auth` fixes its realm to `"basic"` and hands the validator
exactly the fields `(request, username, password)`; `token_auth` fixes its
realm to `"Bearer"` and hands the validator exactly `(request, access_token)`;
and every `AccessDenied` either decorated call raises carries that fixed
realm. -/
theorem C7_fixed_realms_and_fields (f : Handler) (t : Option Validator)
    (r : Request) (a : List Val) (k : List (String × Val)) (u pw tok : String)
    (rm1 m1 rm2 m2 : String)
    (hb : r.auth_basic = (some u, some pw)) (hu : u ≠ "") (hp : pw ≠ "")
    (htk : r.access_token = some tok) (htok : tok ≠ "")
    (h1 : (Decorated.call (basic_auth.decorate .basic f t) r a k).1 =
      .error (.accessDenied rm1 m1))
    (h2 : (Decorated.call (token_auth.decorate f t) r a k).1 =
      .error (.accessDenied rm2 m2)) :
    (basic_auth.decorate .basic f t).dec.realm = "basic" ∧
    (token_auth.decorate f t).dec.realm = "Bearer" ∧
    normalize_target_params Scheme.basic r a k =
      Except.ok ⟨r, [], [("username", Val.str u), ("password", Val.str pw)]⟩ ∧
    normalize_target_params Scheme.token r a k =
      Except.ok ⟨r, [], [("access_token", Val.str tok)]⟩ ∧
    rm1 = "basic" ∧ rm2 = "Bearer" := by
  refine ⟨rfl, rfl, ?_, ?_, ?_, ?_⟩
  · simp [normalize_target_params, hb, hu, hp, optTruthy, optVal]
  · simp [normalize_target_params, htk, htok, optTruthy, optVal]
  · exact call_accessDenied_realm _ r a k rm1 m1 h1
  · exact call_accessDenied_realm _ r a k rm2 m2 h2

/-- Witness for C7: both decorators with an always-falsy validator on a
request with full credentials; both calls end in `AccessDenied` with the
scheme's fixed realm. -/
theorem C7_fixed_realms_and_fields_witness :
    wReqFull.auth_basic = (some "foo", some "bar") ∧
    ("foo" : String) ≠ "" ∧ ("bar" : String) ≠ "" ∧
    wReqFull.access_token = some "tok" ∧ ("tok" : String) ≠ "" ∧
    (Decorated.call (basic_auth.decorate .basic wHandler (some wFalsyValidator))
        wReqFull [] []).1 = .error (.accessDenied "basic" "target did not return True") ∧
    (Decorated.call (token_auth.decorate wHandler (some wFalsyValidator))
        wReqFull [] []).1 = .error (.accessDenied "Bearer" "target did not return True") ∧
    (normalize_target_params Scheme.basic wReqFull [] [] =
      Except.ok ⟨wReqFull, [], [("username", Val.str "foo"), ("password", Val.str "bar")]⟩ ∧
    normalize_target_params Scheme.token wReqFull [] [] =
      Except.ok ⟨wReqFull, [], [("access_token", Val.str "tok")]⟩) :=
  ⟨rfl, by decide, by decide, rfl, by decide, rfl, rfl, by
    have h := C7_fixed_realms_and_fields wHandler (some wFalsyValidator) wReqFull
      [] [] "foo" "bar" "tok" "basic" "target did not return True" "Bearer"
      "target did not return True" rfl (by decide) (by decide) rfl (by decide)
      rfl rfl
    exact ⟨h.2.2.1, h.2.2.2.1⟩⟩

/-- C8: the decorated call writes no decorator instance state — the state
after a call equals the state before — and a second invocation with the same
request, arguments and (deterministic) validator produces the identical
outcome. -/
theorem C8_call_stateless_idempotent (dc : Decorated) (r : Request)
    (a : List Val) (k : List (String × Val)) :
    (Decorated.callS dc r a k).2 = dc.dec ∧
    Decorated.callS ⟨(Decorated.callS dc r a k).2, dc.func⟩ r a k =
      Decorated.callS dc r a k :=
  ⟨rfl, rfl⟩

/-- C9: `client_auth.decorate` forwards to `basic_auth.decorate` without
overriding the realm, so a `client_auth` decorator's realm is the inherited
`"basic"`, and every `AccessDenied` its decorated calls raise carries realm
`"basic"`. -/
theorem C9_client_auth_inherits_basic_realm (f : Handler) (t : Option Validator)
    (r : Request) (a : List Val) (k : List (String × Val)) (rm m : String)
    (h : (Decorated.call (client_auth.decorate f t) r a k).1 =
      .error (.accessDenied rm m)) :
    client_auth.decorate f t = basic_auth.decorate .client f t ∧
    (client_auth.decorate f t).dec.realm = "basic" ∧
    rm = "basic" :=
  ⟨rfl, rfl, call_accessDenied_realm _ r a k rm m h⟩

/-- Witness for C9: a `client_auth` decorator with an always-falsy validator
on a request with full client credentials. -/
theorem C9_client_auth_inherits_basic_realm_witness :
    (Decorated.call (client_auth.decorate wHandler (some wFalsyValidator))
        wReqFull [] []).1 =
      .error (.accessDenied "basic" "target did not return True") ∧
    (client_auth.decorate wHandler (some wFalsyValidator)).dec.realm = "basic" :=
  ⟨rfl,
    (C9_client_auth_inherits_basic_realm wHandler (some wFalsyValidator) wReqFull
      [] [] "basic" "target did not return True" rfl).2.1⟩

/-! ### The WSGI request adapter (`endpoints/interface/wsgi.py`) -/

/-- A raw WSGI request: the environ dictionary's string entries
(`REQUEST_METHOD`, `PATH_INFO`, `QUERY_STRING`, `HTTP_*` headers, ...) as an
association list, plus the contents that reading the `'wsgi.input'` stream
yields. -/
structure RawRequest where
  environ : List (String × String)
  wsgiInput : String
  deriving Repr, DecidableEq

/-- The request object `WSGI.create_request` fills in: headers, method, path,
query, the stored raw request, and the optional body. -/
structure CReq where
  headers : List (String × String)
  method : String
  path : String
  query : String
  raw_request : RawRequest
  body : Option String
  deriving Repr, DecidableEq

/-- Modelled from the spec: the `Request` class the interface instantiates
(`self.request_class()`) is external to these sources; its `is_method(m)`
test is taken as equality of the stored method string with `m`. -/
def CReq.is_method (r : CReq) (m : String) : Bool := r.method == m

/-- Python's `k.startswith('HTTP_')`, on the code-point list of the key. -/
def startsWithHTTP (k : String) : Bool := decide (k.data.take 5 = "HTTP_".data)

/-- `WSGI.create_request(self, raw_request)`: copy every environ entry whose
key starts with `'HTTP_'` into the headers under the key with that 5-character
prefix removed (Python `k[5:]`, i.e. `String.drop 5`); set method, path and
query from `REQUEST_METHOD`, `PATH_INFO` and `QUERY_STRING` (a `KeyError` for
an absent entry is modelled as `Option.none`); store the raw request; and set
the body to the contents of the `'wsgi.input'` stream when
`r.is_method('POST')`, to `None` otherwise. -/
def WSGI.create_request (raw : RawRequest) : Option CReq :=
  match raw.environ.lookup "REQUEST_METHOD", raw.environ.lookup "PATH_INFO",
      raw.environ.lookup "QUERY_STRING" with
  | some m, some pth, some q =>
      let r0 : CReq :=
        { headers := raw.environ.filterMap fun kv =>
            if startsWithHTTP kv.1 then some (kv.1.drop 5, kv.2) else Option.none
          method := m, path := pth, query := q, raw_request := raw
          body := Option.none }
      some (if r0.is_method "POST" then { r0 with body := some raw.wsgiInput } else r0)
  | _, _, _ => Option.none

/-- The headers are exactly the environ entries with key prefix `HTTP_`,
stored under the key with the prefix stripped. -/
def headersExact (headers environ : List (String × String)) : Prop :=
  ∀ hk v, (hk, v) ∈ headers ↔ ("HTTP_" ++ hk, v) ∈ environ

/-- A key satisfies the `HTTP_` test with a given remainder after dropping
5 characters precisely when it is `"HTTP_" ++ remainder`. -/
theorem startsWithHTTP_drop_iff (key hk : String) :
    (startsWithHTTP key = true ∧ key.drop 5 = hk) ↔ key = "HTTP_" ++ hk := by
  constructor
  · rintro ⟨hstart, hdrop⟩
    simp only [startsWithHTTP, decide_eq_true_eq] at hstart
    apply String.ext
    rw [String.data_append]
    calc key.data = key.data.take 5 ++ key.data.drop 5 :=
          (List.take_append_drop 5 key.data).symm
      _ = "HTTP_".data ++ hk.data := by
          rw [hstart, ← String.data_drop, hdrop]
  · rintro rfl
    constructor
    · simp only [startsWithHTTP, decide_eq_true_eq, String.data_append]
      exact List.take_left' rfl
    · apply String.ext
      rw [String.data_drop, String.data_append]
      exact List.drop_left' rfl

/-- C10: for every raw WSGI request accepted by `create_request`, the
resulting request's body is the contents of the `'wsgi.input'` stream exactly
when the method is `POST` (and `None` for every other method), and its headers
are exactly the environ entries whose key starts with `HTTP_`, stored under
the key with that 5-character prefix removed. -/
theorem C10_create_request_body_and_headers (raw : RawRequest) (r : CReq)
    (h : WSGI.create_request raw = some r) :
    (r.body = some raw.wsgiInput ↔ r.method = "POST") ∧
    (r.method ≠ "POST" → r.body = Option.none) ∧
    headersExact r.headers raw.environ := by
  unfold WSGI.create_request at h
  split at h
  case h_2 => exact absurd h (by simp)
  case h_1 m pth q hm hp hq =>
    simp only [Option.some.injEq] at h
    have hdr : headersExact
        (raw.environ.filterMap fun kv =>
          if startsWithHTTP kv.1 then some (kv.1.drop 5, kv.2) else Option.none)
        raw.environ := by
      intro hk v
      rw [List.mem_filterMap]
      constructor
      · rintro ⟨⟨key, w⟩, hmem, hf⟩
        by_cases hs : startsWithHTTP key = true
        · rw [if_pos hs, Option.some.injEq, Prod.mk.injEq] at hf
          have hkey : key = "HTTP_" ++ hk :=
            (startsWithHTTP_drop_iff key hk).mp ⟨hs, hf.1⟩
          rw [← hkey, ← hf.2]
          exact hmem
        · rw [if_neg hs] at hf
          exact absurd hf (by simp)
      · intro hmem
        refine ⟨("HTTP_" ++ hk, v), hmem, ?_⟩
        have hs := (startsWithHTTP_drop_iff ("HTTP_" ++ hk) hk).mpr rfl
        rw [if_pos hs.1, hs.2]
    by_cases hpost : CReq.is_method
        { headers := raw.environ.filterMap fun kv =>
            if startsWithHTTP kv.1 then some (kv.1.drop 5, kv.2) else Option.none
          method := m, path := pth, query := q, raw_request := raw
          body := Option.none } "POST" = true
    · rw [if_pos hpost] at h
      simp only [CReq.is_method, beq_iff_eq] at hpost
      subst h
      refine ⟨by simp [hpost], fun hne => absurd hpost hne, hdr⟩
    · rw [if_neg hpost] at h
      simp only [CReq.is_method, beq_iff_eq] at hpost
      subst h
      refine ⟨by simp [hpost], fun _ => rfl, hdr⟩

/-- A concrete raw WSGI POST request with one `HTTP_` entry and one other. -/
def wRaw : RawRequest :=
  ⟨[("REQUEST_METHOD", "POST"), ("PATH_INFO", "/foo"), ("QUERY_STRING", "a=b"),
    ("HTTP_HOST", "example.com"), ("CONTENT_LENGTH", "3")], "abc"⟩

/-- The request `create_request` builds from `wRaw`. -/
def wCReq : CReq :=
  { headers := [("HOST", "example.com")], method := "POST", path := "/foo",
    query := "a=b", raw_request := wRaw, body := some "abc" }

/-- Witness for C10: `create_request` on a concrete POST request. -/
theorem C10_create_request_body_and_headers_witness :
    WSGI.create_request wRaw = some wCReq ∧
    ((wCReq.body = some wRaw.wsgiInput ↔ wCReq.method = "POST") ∧
      (wCReq.method ≠ "POST" → wCReq.body = Option.none) ∧
      headersExact wCReq.headers wRaw.environ) :=
  ⟨by decide, C10_create_request_body_and_headers wRaw wCReq (by decide)⟩

end Endpoints
